import Mathlib

/-!
Verification of the authenticated-session HTTP client layer of the
devops-agent repository: the GitHub client (`src/clients/github_client.py`),
the Slack client (`src/clients/slack_client.py`) and the ZenTao client
(`src/clients/zentao_client.py`).

The Python code is shallowly embedded: pure helpers become Lean functions,
stateful request flows become functions over explicit oracle lists that
record the successive outcomes of the underlying transport, and Python
exceptions become `Except` values.  Strings are handled through their
character lists (`String.data`), matching Python's character-level string
operations.
-/

namespace DevopsAgent

/-! ## Generic string helpers (Python `in`, `str.join`, `str.lower`, `str.strip`) -/

/-- Python's substring test `needle in hay`, over character lists. -/
def isSub (needle : List Char) : List Char → Bool
  | [] => needle.isEmpty
  | c :: rest => needle.isPrefixOf (c :: rest) || isSub needle rest

/-- Python's `sep.join(parts)`: the parts interleaved with the separator. -/
def joinSep (sep : String) : List String → String
  | [] => ""
  | [x] => x
  | x :: y :: rest => x ++ sep ++ joinSep sep (y :: rest)

/-- Python's `s.lower()` (ASCII case folding, as in `Char.toLower`). -/
def lowerStr (s : String) : String := ⟨s.data.map Char.toLower⟩

/-- Python's `s.strip()`: drop leading and trailing whitespace. -/
def stripStr (s : String) : String :=
  ⟨((s.data.dropWhile Char.isWhitespace).reverse.dropWhile Char.isWhitespace).reverse⟩

/-! ## GitHub client: `GitHubClient._full_repo` (github_client.py lines 51-62) -/

/-- Embedding of `GitHubClient._full_repo(self, repo)`.  `owner` is the
`self.owner` field fixed at construction; `"/" in repo` is char membership;
`if self.owner:` is Python truthiness (non-empty string). -/
def full_repo (owner repo : String) : String :=
  if repo.data.contains '/' then repo
  else if owner ≠ "" then owner ++ "/" ++ repo
  else repo

/-! ## GitHub client: `GitHubClient.get_issues` (github_client.py lines 149-173) -/

/-- One entry of the JSON array returned by the `/issues` endpoint.
`pull_request` is `some _` exactly when the Python dict has a
`"pull_request"` key; `payload` stands for the remaining fields. -/
structure IssueEntry where
  payload : String
  pull_request : Option String
deriving DecidableEq

/-- Embedding of the filtering step of `get_issues`:
`issues = [i for i in result if "pull_request" not in i]`. -/
def get_issues (result : List IssueEntry) : List IssueEntry :=
  result.filter (fun i => i.pull_request.isNone)

/-! ## GitHub client: `GitHubClient.get_file` (github_client.py lines 241-267) -/

/-- Embedding of Python's `content.replace("\n", "")`. -/
def removeNewlines (s : String) : String := ⟨s.data.filter (fun c => c != '\n')⟩

/-- Value of a character in the standard base64 alphabet
(models the table used by `base64.b64decode`). -/
def b64val (c : Char) : Option Nat :=
  let n := c.toNat
  if 65 ≤ n ∧ n ≤ 90 then some (n - 65)
  else if 97 ≤ n ∧ n ≤ 122 then some (n - 97 + 26)
  else if 48 ≤ n ∧ n ≤ 57 then some (n - 48 + 52)
  else if c = '+' then some 62
  else if c = '/' then some 63
  else none

/-- Decode base64 quartets into bytes; decoding stops at a padding group, and
a trailing group that is not a valid quartet is an error (Python's
`binascii.Error: Incorrect padding`). -/
def b64chunks : List Char → Option (List Nat)
  | [] => some []
  | a :: b :: '=' :: '=' :: _ =>
    match b64val a, b64val b with
    | some va, some vb => some [va * 4 + vb / 16]
    | _, _ => none
  | a :: b :: c :: '=' :: _ =>
    match b64val a, b64val b, b64val c with
    | some va, some vb, some vc => some [va * 4 + vb / 16, vb % 16 * 16 + vc / 4]
    | _, _, _ => none
  | a :: b :: c :: d :: rest =>
    match b64val a, b64val b, b64val c, b64val d, b64chunks rest with
    | some va, some vb, some vc, some vd, some tail =>
      some ((va * 4 + vb / 16) :: (vb % 16 * 16 + vc / 4) :: (vc % 4 * 64 + vd) :: tail)
    | _, _, _, _, _ => none
  | _ => none

/-- Standard base64 decoding as performed by Python's
`base64.b64decode(s)` (default `validate=False`): characters outside the
alphabet and `'='` are discarded before decoding. -/
def b64decode (s : String) : Option (List Nat) :=
  b64chunks (s.data.filter (fun c => (b64val c).isSome || c == '='))

/-- The Unicode replacement character used by `errors="replace"`. -/
def replChar : Char := '�'

/-- Whether a byte is a UTF-8 continuation byte. -/
def isCont (b : Nat) : Bool := 0x80 ≤ b && b < 0xC0

/-- UTF-8 decoding with replacement, modelling Python's
`bytes.decode("utf-8", errors="replace")`: every malformed sequence
(stray continuation byte, overlong form, surrogate, out-of-range lead,
truncated sequence) yields the replacement character instead of an error. -/
def utf8DecodeAux : List Nat → List Char
  | [] => []
  | b :: rest =>
    if b < 0x80 then Char.ofNat b :: utf8DecodeAux rest
    else if b < 0xC2 then replChar :: utf8DecodeAux rest
    else if b < 0xE0 then
      match rest with
      | b2 :: rest2 =>
        if isCont b2 then Char.ofNat ((b - 0xC0) * 0x40 + (b2 - 0x80)) :: utf8DecodeAux rest2
        else replChar :: utf8DecodeAux (b2 :: rest2)
      | [] => [replChar]
    else if b < 0xF0 then
      match rest with
      | b2 :: rest2 =>
        if isCont b2 && (decide (b ≠ 0xE0) || decide (0xA0 ≤ b2)) && (decide (b ≠ 0xED) || decide (b2 < 0xA0)) then
          match rest2 with
          | b3 :: rest3 =>
            if isCont b3 then
              Char.ofNat ((b - 0xE0) * 0x1000 + (b2 - 0x80) * 0x40 + (b3 - 0x80)) :: utf8DecodeAux rest3
            else replChar :: utf8DecodeAux (b3 :: rest3)
          | [] => [replChar]
        else replChar :: utf8DecodeAux (b2 :: rest2)
      | [] => [replChar]
    else if b < 0xF5 then
      match rest with
      | b2 :: rest2 =>
        if isCont b2 && (decide (b ≠ 0xF0) || decide (0x90 ≤ b2)) && (decide (b ≠ 0xF4) || decide (b2 < 0x90)) then
          match rest2 with
          | b3 :: rest3 =>
            if isCont b3 then
              match rest3 with
              | b4 :: rest4 =>
                if isCont b4 then
                  Char.ofNat ((b - 0xF0) * 0x40000 + (b2 - 0x80) * 0x1000 + (b3 - 0x80) * 0x40 + (b4 - 0x80)) :: utf8DecodeAux rest4
                else replChar :: utf8DecodeAux (b4 :: rest4)
              | [] => [replChar]
            else replChar :: utf8DecodeAux (b3 :: rest3)
          | [] => [replChar]
        else replChar :: utf8DecodeAux (b2 :: rest2)
      | [] => [replChar]
    else replChar :: utf8DecodeAux rest

/-- `bytes.decode("utf-8", errors="replace")` as a total function. -/
def utf8DecodeReplace (bs : List Nat) : String := ⟨utf8DecodeAux bs⟩

/-- The `content`/`encoding` fields of the response dict of
`GET /repos/.../contents/...`. -/
structure FileResp where
  content : String
  encoding : String
deriving DecidableEq

/-- Embedding of the content-decoding step of `GitHubClient.get_file`:
`if result.get("content") and result.get("encoding") == "base64":` then
`raw = result["content"].replace("\n", "")` and
`decoded = base64.b64decode(raw).decode("utf-8", errors="replace")`.
A base64 padding failure raises (`Except.error`); everything else returns
the (possibly rewritten) response. -/
def get_file (r : FileResp) : Except String FileResp :=
  if r.content ≠ "" ∧ r.encoding = "base64" then
    match b64decode (removeNewlines r.content) with
    | some bytes => Except.ok { r with content := utf8DecodeReplace bytes }
    | none => Except.error "binascii.Error: Incorrect padding"
  else Except.ok r

/-! ## GitHub client: `get_project_by_name` (github_client.py lines 389-412) -/

/-- A Projects V2 node as listed by `list_projects` (only the fields the
lookup reads). -/
structure ProjRec where
  id : String
  title : String
deriving DecidableEq

/-- `name_lower = name.lower().strip()` from `get_project_by_name`. -/
def projClean (name : String) : String := stripStr (lowerStr name)

/-- The exact-match test: `p["title"].lower() == name_lower`. -/
def projExact (name : String) (p : ProjRec) : Bool :=
  lowerStr p.title == projClean name

/-- The fuzzy-match test: `name_lower in p["title"].lower()`. -/
def projFuzzy (name : String) (p : ProjRec) : Bool :=
  isSub (projClean name).data (lowerStr p.title).data

/-- Embedding of `GitHubClient.get_project_by_name` over the listing
returned by `list_projects` (iterated in listing order): exact phase over
all projects, then fuzzy phase, else `None`. -/
def get_project_by_name (projects : List ProjRec) (name : String) : Option ProjRec :=
  match projects.find? (projExact name) with
  | some p => some p
  | none => projects.find? (projFuzzy name)

/-! ## Slack client: directory caches (slack_client.py lines 114-136, 200-226) -/

/-- A channel record as stored in `self._channel_cache` (`{"id", "name"}`). -/
structure ChanRec where
  id : String
  name : String
deriving DecidableEq

/-- A raw member as returned by `users_list`, with the `deleted`/`is_bot`
flags inspected during cache population. -/
structure RawUser where
  id : String
  name : String
  real_name : String
  display_name : String
  deleted : Bool
  is_bot : Bool
deriving DecidableEq

/-- A user record as stored in `self._user_cache`
(`{"id", "name", "real_name", "display_name"}`). -/
structure UserRec where
  id : String
  name : String
  real_name : String
  display_name : String
deriving DecidableEq

/-- `self._channel_cache[ch["id"]] = {...}`: Python dict assignment keyed by
id — an existing key is overwritten in place, a new key is appended.  The
cache is modelled as its list of values in insertion order. -/
def insertChan (cache : List ChanRec) (c : ChanRec) : List ChanRec :=
  if cache.any (fun x => x.id == c.id) then cache.map (fun x => if x.id == c.id then c else x)
  else cache ++ [c]

/-- Dict assignment for the user cache, keyed by `user["id"]`. -/
def insertUser (cache : List UserRec) (u : UserRec) : List UserRec :=
  if cache.any (fun x => x.id == u.id) then cache.map (fun x => if x.id == u.id then u else x)
  else cache ++ [u]

/-- The record stored for a raw member. -/
def toUserRec (u : RawUser) : UserRec := ⟨u.id, u.name, u.real_name, u.display_name⟩

/-- The paginated scan of `_load_all_channels`: each transport call returns
one page; the loop runs until the backend stops returning a next-cursor,
so the backend is modelled as the finite list of pages it serves. -/
def scanChannels (pages : List (List ChanRec)) (cache : List ChanRec) : List ChanRec :=
  pages.foldl (fun acc page => page.foldl insertChan acc) cache

/-- The paginated scan of `_load_all_users`, skipping members with
`user.get("deleted") or user.get("is_bot")`. -/
def scanUsers (pages : List (List RawUser)) (cache : List UserRec) : List UserRec :=
  pages.foldl
    (fun acc page =>
      page.foldl (fun acc2 u => if u.deleted || u.is_bot then acc2 else insertUser acc2 (toUserRec u)) acc)
    cache

/-- Embedding of `SlackClient._load_all_channels`: `if self._channel_cache:
return` skips the scan when the cache is non-empty; otherwise the full
paginated scan runs.  The second component counts the
`conversations_list` transport calls performed. -/
def load_all_channels (pages : List (List ChanRec)) (cache : List ChanRec) : List ChanRec × Nat :=
  if cache.isEmpty then (scanChannels pages cache, pages.length) else (cache, 0)

/-- Embedding of `SlackClient._load_all_users`, with the count of
`users_list` transport calls. -/
def load_all_users (pages : List (List RawUser)) (cache : List UserRec) : List UserRec × Nat :=
  if cache.isEmpty then (scanUsers pages cache, pages.length) else (cache, 0)

/-! ## Slack client: name resolution (slack_client.py lines 138-196, 228-259) -/

/-- `name_clean = name.lstrip("#").lower().strip()` from `resolve_channel`. -/
def chanClean (name : String) : String :=
  stripStr (lowerStr ⟨name.data.dropWhile (fun c => c = '#')⟩)

/-- The exact-match test of `resolve_channel`:
`ch["name"].lower() == name_clean`. -/
def chanExact (name : String) (c : ChanRec) : Bool :=
  lowerStr c.name == chanClean name

/-- The fuzzy-match test of `resolve_channel`:
`name_clean in ch["name"].lower()`. -/
def chanFuzzy (name : String) (c : ChanRec) : Bool :=
  isSub (chanClean name).data (lowerStr c.name).data

/-- Embedding of `SlackClient.resolve_channel` over a loaded cache (the
method first calls `_load_all_channels`; resolution itself only reads the
cache, iterated in insertion order).  An input that cleans to the empty
string returns `None` before any matching. -/
def resolve_channel (cache : List ChanRec) (name : String) : Option ChanRec :=
  if chanClean name = "" then none
  else
    match cache.find? (chanExact name) with
    | some c => some c
    | none => cache.find? (chanFuzzy name)

/-- `name_lower = name.lower().strip()` from `find_user_by_name`. -/
def userClean (name : String) : String := stripStr (lowerStr name)

/-- The exact-match test of `find_user_by_name`: `name_lower in
(user["real_name"].lower(), user["display_name"].lower(), user["name"].lower())`. -/
def userExact (name : String) (u : UserRec) : Bool :=
  userClean name == lowerStr u.real_name || userClean name == lowerStr u.display_name
    || userClean name == lowerStr u.name

/-- The fuzzy-match test of `find_user_by_name`: substring containment in
any of the three name variants. -/
def userFuzzy (name : String) (u : UserRec) : Bool :=
  isSub (userClean name).data (lowerStr u.real_name).data
    || isSub (userClean name).data (lowerStr u.display_name).data
    || isSub (userClean name).data (lowerStr u.name).data

/-- Embedding of `SlackClient.find_user_by_name` over a loaded cache:
exact phase over all users first, then fuzzy phase, else `None`. -/
def find_user_by_name (cache : List UserRec) (name : String) : Option UserRec :=
  match cache.find? (userExact name) with
  | some u => some u
  | none => cache.find? (userFuzzy name)

/-- Embedding of `SlackClient.validate_and_resolve_channel` over a loaded
cache: on resolution success `(ch["id"], None)`; on failure `(None, msg)`
where `msg` lists `f"#{c['name']}"` for every cached channel joined by
`"、"` (or `"无"` when the cache is empty). -/
def validate_and_resolve_channel (cache : List ChanRec) (name : String) :
    Option String × Option String :=
  match resolve_channel cache name with
  | some ch => (some ch.id, none)
  | none =>
    let available := cache.map (fun c => "#" ++ c.name)
    let availableStr := if available.isEmpty then "无" else joinSep "、" available
    (none, some ("频道 '" ++ name ++ "' 不存在或 Bot 未加入该频道。\n当前可用频道: " ++ availableStr))

/-! ## Slack client: `build_task_blocks` (slack_client.py lines 268-318) -/

/-- A Block Kit element as assembled by `build_task_blocks`; each
constructor corresponds to one `"type"` of dict built there. -/
inductive Block where
  | header (text : String)
  | divider
  | fieldsSection (fields : List String)
  | textSection (text : String)
  | context (elements : List String)
deriving DecidableEq

/-- Embedding of the static method `SlackClient.build_task_blocks`.
Python truthiness `if assignee:` / `if description:` is the non-empty
string test; the default arguments are `status="📋 待处理"`,
`priority="普通"`, `description=""`, `assignee=""`. -/
def build_task_blocks (title : String) (description : String := "")
    (assignee : String := "") (status : String := "📋 待处理")
    (priority : String := "普通") : List Block :=
  [Block.header ("📌 " ++ title), Block.divider]
    ++ [Block.fieldsSection
          (["*状态:*\n" ++ status, "*优先级:*\n" ++ priority]
            ++ (if assignee ≠ "" then ["*负责人:*\n" ++ assignee] else []))]
    ++ (if description ≠ "" then [Block.textSection ("*描述:*\n" ++ description)] else [])
    ++ [Block.context ["创建自 DevOps Agent | Antigravity MCP"]]

/-- Recognizer for a description section among the assembled blocks. -/
def isDescBlock : Block → Bool
  | Block.textSection _ => true
  | _ => false

/-! ## ZenTao client: session flow (zentao_client.py lines 36-112) -/

/-- Outcome of one `POST /tokens` login attempt as served by the backend:
a token, a 2xx body without a `token` field (→ `ValueError`), or an
`httpx.HTTPError` (→ wrapped in `ZentaoAPIError`). -/
inductive AuthOutcome where
  | ok (tok : String)
  | noToken
  | netErr (msg : String)
deriving DecidableEq

/-- Errors surfacing from the ZenTao client. -/
inductive ZErr where
  | apiError (msg : String)
  | valueError (msg : String)
  | httpStatus (code : Nat)
deriving DecidableEq

/-- Outcome of one attempt of the actual request: the HTTP status and the
JSON body (opaque here). -/
structure ReqOutcome where
  status : Nat
  body : String
deriving DecidableEq

/-- `response.raise_for_status()` succeeds exactly on 2xx. -/
def is2xx (s : Nat) : Bool := 200 ≤ s && s < 300

/-- Embedding of `ZentaoClient._ensure_token`: if a token is cached, no
call; otherwise one login call whose outcome is the head of the oracle
list (an exhausted oracle is treated as a transport failure; the theorems
below always supply enough outcomes).  Returns the token or the raised
error, the remaining oracle, and the number of login calls performed. -/
def ensure_token (tok : Option String) (auths : List AuthOutcome) :
    Except ZErr String × List AuthOutcome × Nat :=
  match tok with
  | some t => (Except.ok t, auths, 0)
  | none =>
    match auths with
    | [] => (Except.error (ZErr.apiError "禅道登录失败: [no response]"), [], 1)
    | a :: rest =>
      match a with
      | AuthOutcome.ok t => (Except.ok t, rest, 1)
      | AuthOutcome.noToken => (Except.error (ZErr.valueError "禅道登录失败，响应: [no token]"), rest, 1)
      | AuthOutcome.netErr m => (Except.error (ZErr.apiError ("禅道登录失败: " ++ m)), rest, 1)

/-- Embedding of `ZentaoClient._get`: ensure token, issue the request; on a
401 status clear the token, re-authenticate (a failure here propagates, see
the Python semantics of raising inside an `except` block) and retry the
request exactly once, any second failure propagating as
`HTTPStatusError`; any other non-2xx propagates as-is.  Result: the
operation outcome, the final cached token, and the number of login calls. -/
def zentao_get (tok : Option String) (auths : List AuthOutcome) (reqs : List ReqOutcome) :
    Except ZErr String × Option String × Nat :=
  match ensure_token tok auths with
  | (Except.error e, _, n1) => (Except.error e, tok, n1)
  | (Except.ok t, auths1, n1) =>
    match reqs with
    | [] => (Except.error (ZErr.apiError "[no response]"), some t, n1)
    | r :: reqs1 =>
      if is2xx r.status then (Except.ok r.body, some t, n1)
      else if r.status = 401 then
        match ensure_token none auths1 with
        | (Except.error e, _, n2) => (Except.error e, none, n1 + n2)
        | (Except.ok t2, _, n2) =>
          match reqs1 with
          | [] => (Except.error (ZErr.apiError "[no response]"), some t2, n1 + n2)
          | r2 :: _ =>
            if is2xx r2.status then (Except.ok r2.body, some t2, n1 + n2)
            else (Except.error (ZErr.httpStatus r2.status), some t2, n1 + n2)
      else (Except.error (ZErr.httpStatus r.status), some t, n1)

/-- Embedding of `ZentaoClient._post`: identical control flow to `_get`
(the verb and request body do not affect the session logic). -/
def zentao_post (tok : Option String) (auths : List AuthOutcome) (reqs : List ReqOutcome) :
    Except ZErr String × Option String × Nat :=
  match ensure_token tok auths with
  | (Except.error e, _, n1) => (Except.error e, tok, n1)
  | (Except.ok t, auths1, n1) =>
    match reqs with
    | [] => (Except.error (ZErr.apiError "[no response]"), some t, n1)
    | r :: reqs1 =>
      if is2xx r.status then (Except.ok r.body, some t, n1)
      else if r.status = 401 then
        match ensure_token none auths1 with
        | (Except.error e, _, n2) => (Except.error e, none, n1 + n2)
        | (Except.ok t2, _, n2) =>
          match reqs1 with
          | [] => (Except.error (ZErr.apiError "[no response]"), some t2, n1 + n2)
          | r2 :: _ =>
            if is2xx r2.status then (Except.ok r2.body, some t2, n1 + n2)
            else (Except.error (ZErr.httpStatus r2.status), some t2, n1 + n2)
      else (Except.error (ZErr.httpStatus r.status), some t, n1)

/-- Embedding of `ZentaoClient._put`: identical control flow to `_get`. -/
def zentao_put (tok : Option String) (auths : List AuthOutcome) (reqs : List ReqOutcome) :
    Except ZErr String × Option String × Nat :=
  match ensure_token tok auths with
  | (Except.error e, _, n1) => (Except.error e, tok, n1)
  | (Except.ok t, auths1, n1) =>
    match reqs with
    | [] => (Except.error (ZErr.apiError "[no response]"), some t, n1)
    | r :: reqs1 =>
      if is2xx r.status then (Except.ok r.body, some t, n1)
      else if r.status = 401 then
        match ensure_token none auths1 with
        | (Except.error e, _, n2) => (Except.error e, none, n1 + n2)
        | (Except.ok t2, _, n2) =>
          match reqs1 with
          | [] => (Except.error (ZErr.apiError "[no response]"), some t2, n1 + n2)
          | r2 :: _ =>
            if is2xx r2.status then (Except.ok r2.body, some t2, n1 + n2)
            else (Except.error (ZErr.httpStatus r2.status), some t2, n1 + n2)
      else (Except.error (ZErr.httpStatus r.status), some t, n1)

/-! ## ZenTao client: response normalization (zentao_client.py lines 116-361) -/

/-- A JSON value, as needed by the list-operation normalizers. -/
inductive JVal where
  | jnull
  | jstr (s : String)
  | jnum (n : Int)
  | jobj (fields : List (String × JVal))

/-- Python dict lookup `d.get(k)` over an association list (dict keys are
unique; first match). -/
def jget (fields : List (String × JVal)) (k : String) : Option JVal :=
  match fields with
  | [] => none
  | (k2, v) :: rest => if k2 = k then some v else jget rest k

/-- Python's `str(...)` builtin on the values the normalizer can feed it:
`str(None) = "None"`, strings pass through, numbers print.  (The dict case
is unreachable from `normalizePerson`, which handles dicts separately;
Python would render the dict literally there.) -/
def pyStr : JVal → String
  | JVal.jnull => "None"
  | JVal.jstr s => s
  | JVal.jnum n => toString n
  | JVal.jobj _ => ""

/-- Embedding of the person-reference normalizer repeated in `list_bugs`,
`list_tasks`, `list_stories` (fields `assignedTo`, `openedBy`) and
`list_projects` (field `PM`):
`b.get(key, {}).get("realname", "") if isinstance(b.get(key), dict) else str(b.get(key, ""))`. -/
def normalizePerson (b : List (String × JVal)) (key : String) : JVal :=
  match jget b key with
  | some (JVal.jobj fields) => (jget fields "realname").getD (JVal.jstr "")
  | _ => JVal.jstr (pyStr ((jget b key).getD (JVal.jstr "")))

/-- The row built for one entry by `list_bugs` (zentao_client.py lines
178-190); the subscripted fields `b["id"]`, `b["title"]`, `b["status"]`
raise `KeyError` when absent, hence the `Option`. -/
def listBugItem (b : List (String × JVal)) : Option (List (String × JVal)) := do
  let id ← jget b "id"
  let title ← jget b "title"
  let status ← jget b "status"
  pure [("id", id), ("title", title), ("status", status),
        ("severity", (jget b "severity").getD (JVal.jstr "")),
        ("pri", (jget b "pri").getD (JVal.jstr "")),
        ("assignedTo", normalizePerson b "assignedTo"),
        ("openedBy", normalizePerson b "openedBy"),
        ("openedDate", (jget b "openedDate").getD (JVal.jstr ""))]

/-- The row built for one entry by `list_projects` (lines 139-149). -/
def listProjectItem (p : List (String × JVal)) : Option (List (String × JVal)) := do
  let id ← jget p "id"
  let name ← jget p "name"
  let status ← jget p "status"
  pure [("id", id), ("name", name), ("status", status),
        ("begin", (jget p "begin").getD (JVal.jstr "")),
        ("end", (jget p "end").getD (JVal.jstr "")),
        ("PM", normalizePerson p "PM")]

/-- The row built for one entry by `list_tasks` (lines 281-292). -/
def listTaskItem (t : List (String × JVal)) : Option (List (String × JVal)) := do
  let id ← jget t "id"
  let name ← jget t "name"
  let status ← jget t "status"
  pure [("id", id), ("name", name), ("status", status),
        ("pri", (jget t "pri").getD (JVal.jstr "")),
        ("assignedTo", normalizePerson t "assignedTo"),
        ("deadline", (jget t "deadline").getD (JVal.jstr "")),
        ("estimate", (jget t "estimate").getD (JVal.jnum 0))]

/-- The row built for one entry by `list_stories` (lines 351-361). -/
def listStoryItem (s : List (String × JVal)) : Option (List (String × JVal)) := do
  let id ← jget s "id"
  let title ← jget s "title"
  let status ← jget s "status"
  pure [("id", id), ("title", title), ("status", status),
        ("pri", (jget s "pri").getD (JVal.jstr "")),
        ("stage", (jget s "stage").getD (JVal.jstr "")),
        ("assignedTo", normalizePerson s "assignedTo")]

/-! ## Helper lemmas -/

theorem isPrefixOf_append_self (n t : List Char) : n.isPrefixOf (n ++ t) = true := by
  induction n with
  | nil => cases t <;> rfl
  | cons c cs ih => simp [List.isPrefixOf, ih]

theorem isSub_of_isPrefixOf (n h : List Char) (hp : n.isPrefixOf h = true) : isSub n h = true := by
  cases h with
  | nil =>
    cases n with
    | nil => rfl
    | cons c cs => simp [List.isPrefixOf] at hp
  | cons c rest => simp [isSub, hp]

theorem isSub_append_left (pre n h : List Char) (hs : isSub n h = true) :
    isSub n (pre ++ h) = true := by
  induction pre with
  | nil => exact hs
  | cons c cs ih => simp [isSub, ih]

theorem isPrefixOf_self (n : List Char) : n.isPrefixOf n = true := by
  induction n with
  | nil => rfl
  | cons c cs ih => simp [List.isPrefixOf, ih]

theorem isSub_append_self (pre n : List Char) : isSub n (pre ++ n) = true :=
  isSub_append_left pre n n (isSub_of_isPrefixOf n n (isPrefixOf_self n))

theorem joinSep_isSub (sep : String) (l : List String) (s : String) (hs : s ∈ l) :
    isSub s.data (joinSep sep l).data = true := by
  induction l with
  | nil => cases hs
  | cons x xs ih =>
    cases xs with
    | nil =>
      have : s = x := by simpa using hs
      subst this
      simpa [joinSep] using isSub_append_self [] s.data
    | cons y rest =>
      rcases List.mem_cons.mp hs with h | h
      · subst h
        have hd : (joinSep sep (s :: y :: rest)).data
            = s.data ++ (sep.data ++ (joinSep sep (y :: rest)).data) := by
          simp [joinSep, String.data_append]
        rw [hd]
        exact isSub_of_isPrefixOf _ _ (isPrefixOf_append_self s.data _)
      · have hd : (joinSep sep (x :: y :: rest)).data
            = x.data ++ (sep.data ++ (joinSep sep (y :: rest)).data) := by
          simp [joinSep, String.data_append]
        rw [hd]
        exact isSub_append_left _ _ _ (isSub_append_left _ _ _ (ih h))

theorem find?_append_first {α : Type} (p : α → Bool) (l1 : List α) (e : α) (l2 : List α)
    (he : p e = true) (hl : ∀ x ∈ l1, p x = false) : (l1 ++ e :: l2).find? p = some e := by
  induction l1 with
  | nil => simpa using List.find?_cons_of_pos l2 he
  | cons a as ih =>
    have ha : p a = false := hl a (by simp)
    rw [List.cons_append, List.find?_cons_of_neg _ (by simp [ha])]
    exact ih (fun x hx => hl x (by simp [hx]))

/-! ## Claim theorems -/

/-- C1: for every IssueTrackerClient request (GET, POST, PUT) starting with
no cached session token: if the backend returns 401 once and then any 2xx
after re-authentication, the operation succeeds and exactly two
authentication calls occur; if the backend returns 401 twice in a row, the
operation fails after exactly two authentication attempts with the second
401 propagating as-is. -/
theorem c1_session_retry :
    ∀ (t1 t2 b1 b2 : String) (s : Nat), 200 ≤ s → s < 300 →
      (zentao_get none [AuthOutcome.ok t1, AuthOutcome.ok t2] [⟨401, b1⟩, ⟨s, b2⟩]
          = (Except.ok b2, some t2, 2)
        ∧ zentao_post none [AuthOutcome.ok t1, AuthOutcome.ok t2] [⟨401, b1⟩, ⟨s, b2⟩]
          = (Except.ok b2, some t2, 2)
        ∧ zentao_put none [AuthOutcome.ok t1, AuthOutcome.ok t2] [⟨401, b1⟩, ⟨s, b2⟩]
          = (Except.ok b2, some t2, 2))
      ∧ (zentao_get none [AuthOutcome.ok t1, AuthOutcome.ok t2] [⟨401, b1⟩, ⟨401, b2⟩]
          = (Except.error (ZErr.httpStatus 401), some t2, 2)
        ∧ zentao_post none [AuthOutcome.ok t1, AuthOutcome.ok t2] [⟨401, b1⟩, ⟨401, b2⟩]
          = (Except.error (ZErr.httpStatus 401), some t2, 2)
        ∧ zentao_put none [AuthOutcome.ok t1, AuthOutcome.ok t2] [⟨401, b1⟩, ⟨401, b2⟩]
          = (Except.error (ZErr.httpStatus 401), some t2, 2)) := by
  intro t1 t2 b1 b2 s h1 h2
  have hpost : zentao_post = zentao_get := rfl
  have hput : zentao_put = zentao_get := rfl
  have h401 : is2xx 401 = false := rfl
  have hs : is2xx s = true := by
    simp only [is2xx, Bool.and_eq_true, decide_eq_true_eq]
    exact ⟨h1, h2⟩
  refine ⟨⟨?_, ?_, ?_⟩, ⟨?_, ?_, ?_⟩⟩ <;>
    simp [hpost, hput, zentao_get, ensure_token, h401, hs]

/-- Witness for C1: the retry scenario at status 200 with concrete tokens. -/
theorem c1_session_retry_witness :
    (200 ≤ 200 ∧ 200 < 300)
    ∧ zentao_get none [AuthOutcome.ok "tokA", AuthOutcome.ok "tokB"] [⟨401, ""⟩, ⟨200, "body"⟩]
      = (Except.ok "body", some "tokB", 2) :=
  ⟨⟨by decide, by decide⟩,
    (c1_session_retry "tokA" "tokB" "" "body" 200 (by decide) (by decide)).1.1⟩

/-- C2 counterexample: with no cached token, a 401 from the request followed
by a failing re-login does NOT propagate the original 401; the re-login's
own error (the wrapped authentication failure) propagates instead. -/
theorem c2_relogin_error_cex :
    zentao_get none [AuthOutcome.ok "tokA", AuthOutcome.netErr "connection reset"] [⟨401, "body"⟩]
      = (Except.error (ZErr.apiError ("禅道登录失败: " ++ "connection reset")), none, 2)
    ∧ (zentao_get none [AuthOutcome.ok "tokA", AuthOutcome.netErr "connection reset"]
        [⟨401, "body"⟩]).1 ≠ Except.error (ZErr.httpStatus 401) := by
  refine ⟨rfl, ?_⟩
  intro h
  have h2 : (Except.error (ZErr.apiError ("禅道登录失败: " ++ "connection reset"))
      : Except ZErr String) = Except.error (ZErr.httpStatus 401) := h
  simp at h2

/-- C2 amended: for every IssueTrackerClient request that receives a 401 and
then attempts re-authentication, if the re-login itself fails then the
error produced by the re-login attempt propagates to the caller (the
typed authentication error wrapping the transport failure, or the
`ValueError` for a token-less login response), not the original 401. -/
theorem c2_relogin_error :
    ∀ (t1 m b : String),
      (zentao_get none [AuthOutcome.ok t1, AuthOutcome.netErr m] [⟨401, b⟩]
          = (Except.error (ZErr.apiError ("禅道登录失败: " ++ m)), none, 2)
        ∧ zentao_post none [AuthOutcome.ok t1, AuthOutcome.netErr m] [⟨401, b⟩]
          = (Except.error (ZErr.apiError ("禅道登录失败: " ++ m)), none, 2)
        ∧ zentao_put none [AuthOutcome.ok t1, AuthOutcome.netErr m] [⟨401, b⟩]
          = (Except.error (ZErr.apiError ("禅道登录失败: " ++ m)), none, 2))
      ∧ (zentao_get none [AuthOutcome.ok t1, AuthOutcome.noToken] [⟨401, b⟩]
          = (Except.error (ZErr.valueError "禅道登录失败，响应: [no token]"), none, 2)
        ∧ zentao_post none [AuthOutcome.ok t1, AuthOutcome.noToken] [⟨401, b⟩]
          = (Except.error (ZErr.valueError "禅道登录失败，响应: [no token]"), none, 2)
        ∧ zentao_put none [AuthOutcome.ok t1, AuthOutcome.noToken] [⟨401, b⟩]
          = (Except.error (ZErr.valueError "禅道登录失败，响应: [no token]"), none, 2)) := by
  intro t1 m b
  have hpost : zentao_post = zentao_get := rfl
  have hput : zentao_put = zentao_get := rfl
  have h401 : is2xx 401 = false := rfl
  refine ⟨⟨?_, ?_, ?_⟩, ⟨?_, ?_, ?_⟩⟩ <;>
    simp [hpost, hput, zentao_get, ensure_token, h401]

/-- C6: repository-reference completion is pure; a string containing `/` is
returned unchanged; a string without `/` is prefixed with the configured
default owner; with no default owner it is returned unchanged. -/
theorem c6_full_repo_completion :
    ∀ (owner repo : String),
      (repo.data.contains '/' = true → full_repo owner repo = repo)
      ∧ (repo.data.contains '/' = false → owner ≠ "" → full_repo owner repo = owner ++ "/" ++ repo)
      ∧ full_repo "" repo = repo := by
  intro owner repo
  refine ⟨?_, ?_, ?_⟩
  · intro h
    simp only [full_repo]
    rw [if_pos h]
  · intro h ho
    simp only [full_repo]
    rw [if_neg (fun hc => Bool.false_ne_true (h ▸ hc)), if_pos ho]
  · by_cases h : repo.data.contains '/' = true
    · simp only [full_repo]
      rw [if_pos h]
    · simp only [full_repo]
      rw [if_neg h, if_neg (fun hc => hc rfl)]

/-- Witness for C6 at concrete inputs. -/
theorem c6_full_repo_witness :
    ("a/b".data.contains '/' = true ∧ full_repo "me" "a/b" = "a/b")
    ∧ ("proj".data.contains '/' = false ∧ ("me" : String) ≠ ""
        ∧ full_repo "me" "proj" = "me/proj") :=
  ⟨⟨by decide, (c6_full_repo_completion "me" "a/b").1 (by decide)⟩,
   ⟨by decide, by decide, (c6_full_repo_completion "me" "proj").2.1 (by decide) (by decide)⟩⟩

/-- C7: the issue listing keeps exactly the entries lacking the
`pull_request` marker, in their original relative order (a sublist), with
multiplicities preserved for marker-free entries and marked entries
excluded. -/
theorem c7_issue_filtering :
    ∀ l : List IssueEntry,
      List.Sublist (get_issues l) l
      ∧ (∀ i ∈ get_issues l, i.pull_request = none)
      ∧ (∀ i : IssueEntry, i.pull_request = none → (get_issues l).count i = l.count i)
      ∧ (∀ i : IssueEntry, i.pull_request ≠ none → i ∉ get_issues l) := by
  intro l
  refine ⟨List.filter_sublist l, ?_, ?_, ?_⟩
  · intro i hi
    have := (List.mem_filter.mp hi).2
    simpa [Option.isNone_iff_eq_none] using this
  · intro i hi
    exact List.count_filter (by simp [hi])
  · intro i hi hmem
    have := (List.mem_filter.mp hmem).2
    simp [Option.isNone_iff_eq_none] at this
    exact hi this

/-- Witness for C7 on a mixed concrete listing. -/
theorem c7_issue_filtering_witness :
    ((⟨"i1", none⟩ : IssueEntry).pull_request = none)
    ∧ (get_issues [⟨"i1", none⟩, ⟨"pr1", some "ref"⟩]).count ⟨"i1", none⟩
      = ([⟨"i1", none⟩, ⟨"pr1", some "ref"⟩] : List IssueEntry).count ⟨"i1", none⟩ :=
  ⟨rfl, (c7_issue_filtering [⟨"i1", none⟩, ⟨"pr1", some "ref"⟩]).2.2.1 ⟨"i1", none⟩ rfl⟩

/-- C8: for a response with `encoding="base64"` and non-empty content
(possibly with embedded newlines), `get_file` returns the UTF-8 text of the
base64 decoding of the content with all newlines removed; bytes that are
not valid UTF-8 become the replacement character instead of an error (the
decoder is total), as the concrete byte `0xFF` shows. -/
theorem c8_base64_file_content :
    (∀ (r : FileResp) (bs : List Nat), r.encoding = "base64" → r.content ≠ "" →
        b64decode (removeNewlines r.content) = some bs →
        get_file r = Except.ok { r with content := utf8DecodeReplace bs })
    ∧ get_file ⟨"aGVs\nbG8=", "base64"⟩ = Except.ok ⟨"hello", "base64"⟩
    ∧ utf8DecodeReplace [0xFF] = "�" := by
  refine ⟨?_, rfl, rfl⟩
  intro r bs henc hcont hdec
  simp [get_file, henc, hcont, hdec]

/-- Witness for C8: the newline-embedded base64 of "hello". -/
theorem c8_base64_file_witness :
    (("aGVs\nbG8=" : String) ≠ "")
    ∧ b64decode (removeNewlines "aGVs\nbG8=") = some [104, 101, 108, 108, 111]
    ∧ get_file ⟨"aGVs\nbG8=", "base64"⟩
      = Except.ok { content := utf8DecodeReplace [104, 101, 108, 108, 111], encoding := "base64" } :=
  ⟨by decide, rfl,
    c8_base64_file_content.1 ⟨"aGVs\nbG8=", "base64"⟩ [104, 101, 108, 108, 111]
      rfl (by decide) rfl⟩

theorem assignee_ne_status (a s : String) : ("*负责人:*\n" ++ a) ≠ ("*状态:*\n" ++ s) := by
  intro h
  have h2 : (("*负责人:*\n" ++ a).data)[1]? = (("*状态:*\n" ++ s).data)[1]? := by rw [h]
  rw [String.data_append, String.data_append] at h2
  have hL : (("*负责人:*\n").data ++ a.data)[1]? = some '负' := rfl
  have hR : (("*状态:*\n").data ++ s.data)[1]? = some '状' := rfl
  rw [hL, hR] at h2
  exact absurd h2 (by decide)

theorem assignee_ne_priority (a p : String) : ("*负责人:*\n" ++ a) ≠ ("*优先级:*\n" ++ p) := by
  intro h
  have h2 : (("*负责人:*\n" ++ a).data)[1]? = (("*优先级:*\n" ++ p).data)[1]? := by rw [h]
  rw [String.data_append, String.data_append] at h2
  have hL : (("*负责人:*\n").data ++ a.data)[1]? = some '负' := rfl
  have hR : (("*优先级:*\n").data ++ p.data)[1]? = some '优' := rfl
  rw [hL, hR] at h2
  exact absurd h2 (by decide)

/-- C9: `build_task_blocks` is pure; for every title the first block is the
header containing the title and the last block is the context footer; a
non-empty description yields exactly one description section and an empty
one yields zero; the assignee field appears in the fields section exactly
when a non-empty assignee is given. -/
theorem c9_build_task_blocks :
    ∀ (t d a s p : String),
      (build_task_blocks t d a s p).head? = some (Block.header ("📌 " ++ t))
      ∧ isSub t.data ("📌 " ++ t).data = true
      ∧ (build_task_blocks t d a s p).getLast?
        = some (Block.context ["创建自 DevOps Agent | Antigravity MCP"])
      ∧ (build_task_blocks t d a s p).countP isDescBlock = (if d ≠ "" then 1 else 0)
      ∧ ∃ fl, (build_task_blocks t d a s p)[2]? = some (Block.fieldsSection fl)
          ∧ (("*负责人:*\n" ++ a) ∈ fl ↔ a ≠ "") := by
  intro t d a s p
  refine ⟨?_, ?_, ?_, ?_, ?_⟩
  · rfl
  · rw [String.data_append]
    exact isSub_append_self _ _
  · simp only [build_task_blocks]
    exact List.getLast?_concat _
  · by_cases hd : d = "" <;>
      simp [build_task_blocks, hd, isDescBlock, List.countP_append, List.countP_cons]
  · refine ⟨["*状态:*\n" ++ s, "*优先级:*\n" ++ p]
      ++ (if a ≠ "" then ["*负责人:*\n" ++ a] else []), by simp [build_task_blocks], ?_⟩
    by_cases ha : a = ""
    · rw [if_neg (fun hc => hc ha)]
      constructor
      · intro hmem
        rcases List.mem_append.mp hmem with hm | hm
        · rcases List.mem_cons.mp hm with he | hm2
          · exact absurd he (assignee_ne_status a s)
          · rcases List.mem_cons.mp hm2 with he | hm3
            · exact absurd he (assignee_ne_priority a p)
            · cases hm3
        · cases hm
      · intro hne
        exact absurd ha hne
    · rw [if_pos ha]
      constructor
      · intro _
        exact ha
      · intro _
        exact List.mem_append.mpr (Or.inr (List.mem_singleton.mpr rfl))

/-- C4: for both MessagingClient directory caches, running the population
routine twice yields the same cache as running it once, and whenever the
cache is already non-empty the call performs zero listing-transport calls
and leaves the cache unchanged. -/
theorem c4_cache_idempotence :
    ∀ (cpages : List (List ChanRec)) (ccache : List ChanRec)
      (upages : List (List RawUser)) (ucache : List UserRec),
      (load_all_channels cpages (load_all_channels cpages ccache).1).1
        = (load_all_channels cpages ccache).1
      ∧ (ccache ≠ [] → load_all_channels cpages ccache = (ccache, 0))
      ∧ (load_all_users upages (load_all_users upages ucache).1).1
        = (load_all_users upages ucache).1
      ∧ (ucache ≠ [] → load_all_users upages ucache = (ucache, 0)) := by
  intro cpages ccache upages ucache
  refine ⟨?_, ?_, ?_, ?_⟩
  · by_cases h : ccache.isEmpty = true
    · have hc : ccache = [] := List.isEmpty_iff.mp h
      subst hc
      by_cases h2 : (scanChannels cpages []).isEmpty = true
      · have hs : scanChannels cpages [] = [] := List.isEmpty_iff.mp h2
        simp [load_all_channels, hs]
      · simp [load_all_channels, h2]
    · simp [load_all_channels, h]
  · intro hne
    have h : ccache.isEmpty = false := List.isEmpty_eq_false.mpr hne
    simp [load_all_channels, h]
  · by_cases h : ucache.isEmpty = true
    · have hc : ucache = [] := List.isEmpty_iff.mp h
      subst hc
      by_cases h2 : (scanUsers upages []).isEmpty = true
      · have hs : scanUsers upages [] = [] := List.isEmpty_iff.mp h2
        simp [load_all_users, hs]
      · simp [load_all_users, h2]
    · simp [load_all_users, h]
  · intro hne
    have h : ucache.isEmpty = false := List.isEmpty_eq_false.mpr hne
    simp [load_all_users, h]

/-- Witness for C4: a non-empty cache is returned unchanged with zero
transport calls, for both caches. -/
theorem c4_cache_idempotence_witness :
    (([⟨"C1", "general"⟩] : List ChanRec) ≠ []
      ∧ load_all_channels [[⟨"C2", "random"⟩]] [⟨"C1", "general"⟩] = ([⟨"C1", "general"⟩], 0))
    ∧ (([⟨"U1", "n", "r", "d"⟩] : List UserRec) ≠ []
      ∧ load_all_users [[⟨"U2", "n2", "r2", "d2", false, false⟩]] [⟨"U1", "n", "r", "d"⟩]
        = ([⟨"U1", "n", "r", "d"⟩], 0)) :=
  ⟨⟨by decide, (c4_cache_idempotence [[⟨"C2", "random"⟩]] [⟨"C1", "general"⟩] [] []).2.1 (by decide)⟩,
   ⟨by decide, (c4_cache_idempotence [] [] [[⟨"U2", "n2", "r2", "d2", false, false⟩]]
      [⟨"U1", "n", "r", "d"⟩]).2.2.2 (by decide)⟩⟩

/-- C5: `validate_and_resolve_channel` returns exactly one of
`(some id, none)` or `(none, some error)`, and on failure the error string
contains every cached channel's name prefixed with `#`. -/
theorem c5_validate_channel :
    ∀ (cache : List ChanRec) (name : String),
      ((∃ i, validate_and_resolve_channel cache name = (some i, none))
        ∨ (∃ e, validate_and_resolve_channel cache name = (none, some e)))
      ∧ (∀ (e : String) (c : ChanRec),
          validate_and_resolve_channel cache name = (none, some e) → c ∈ cache →
          isSub ("#" ++ c.name).data e.data = true) := by
  intro cache name
  constructor
  · cases hr : resolve_channel cache name with
    | some ch => exact Or.inl ⟨ch.id, by simp [validate_and_resolve_channel, hr]⟩
    | none =>
      have hmsg : validate_and_resolve_channel cache name
          = (none, some ("频道 '" ++ name ++ "' 不存在或 Bot 未加入该频道。\n当前可用频道: "
            ++ (if cache = [] then "无"
                else joinSep "、" (cache.map (fun c => "#" ++ c.name))))) := by
        simp [validate_and_resolve_channel, hr]
      exact Or.inr ⟨_, hmsg⟩
  · intro e c hv hc
    cases hr : resolve_channel cache name with
    | some ch => simp [validate_and_resolve_channel, hr] at hv
    | none =>
      simp [validate_and_resolve_channel, hr] at hv
      have hcne : cache ≠ [] := List.ne_nil_of_mem hc
      rw [← hv]
      rw [if_neg hcne]
      rw [String.data_append]
      exact isSub_append_left _ _ _
        (joinSep_isSub "、" _ _ (List.mem_map_of_mem _ hc))

/-- Witness for C5: a failing lookup against a one-channel cache, whose
error message contains `#general`. -/
theorem c5_validate_channel_witness :
    validate_and_resolve_channel [⟨"C1", "general"⟩] "zzz"
      = (none, some "频道 'zzz' 不存在或 Bot 未加入该频道。\n当前可用频道: #general")
    ∧ (⟨"C1", "general"⟩ : ChanRec) ∈ ([⟨"C1", "general"⟩] : List ChanRec)
    ∧ isSub ("#" ++ "general").data
        ("频道 'zzz' 不存在或 Bot 未加入该频道。\n当前可用频道: #general").data = true :=
  ⟨rfl, List.mem_singleton.mpr rfl,
    (c5_validate_channel [⟨"C1", "general"⟩] "zzz").2
      "频道 'zzz' 不存在或 Bot 未加入该频道。\n当前可用频道: #general"
      ⟨"C1", "general"⟩ rfl (List.mem_singleton.mpr rfl)⟩

/-- C3 counterexample: a directory holding a channel whose name is an exact
(case-insensitive, normalized) match for the query `"#"` together with a
distinct substring match, yet `resolve_channel` returns the not-found
sentinel: a query that normalizes to the empty string short-circuits to
`None` before any matching. -/
theorem c3_resolution_priority_cex :
    resolve_channel [⟨"C1", ""⟩, ⟨"C2", "x"⟩] "#" = none
    ∧ chanExact "#" ⟨"C1", ""⟩ = true
    ∧ chanFuzzy "#" ⟨"C2", "x"⟩ = true
    ∧ (⟨"C1", ""⟩ : ChanRec) ≠ ⟨"C2", "x"⟩ := by
  exact ⟨rfl, rfl, rfl, by decide⟩

/-- C3 amended: for each name-resolution operation, matching being against
the operation's normalized query, the first exact match in listing order is
returned even when substring matches precede it; with no exact match, the
first substring match in listing order is returned; with no match at all
the not-found sentinel is returned — for `resolve_channel` the two match
phases additionally require the query to normalize to a non-empty string
(otherwise the sentinel is returned regardless of the directory). -/
theorem c3_resolution_priority :
    (∀ (q : String) (l1 : List ChanRec) (e : ChanRec) (l2 : List ChanRec),
        chanClean q ≠ "" → chanExact q e = true → (∀ x ∈ l1, chanExact q x = false) →
        resolve_channel (l1 ++ e :: l2) q = some e)
    ∧ (∀ (q : String) (l1 : List ChanRec) (e : ChanRec) (l2 : List ChanRec),
        chanClean q ≠ "" → (∀ x ∈ l1 ++ e :: l2, chanExact q x = false) →
        chanFuzzy q e = true → (∀ x ∈ l1, chanFuzzy q x = false) →
        resolve_channel (l1 ++ e :: l2) q = some e)
    ∧ (∀ (q : String) (cache : List ChanRec),
        (∀ x ∈ cache, chanExact q x = false ∧ chanFuzzy q x = false) →
        resolve_channel cache q = none)
    ∧ (∀ (q : String) (l1 : List UserRec) (e : UserRec) (l2 : List UserRec),
        userExact q e = true → (∀ x ∈ l1, userExact q x = false) →
        find_user_by_name (l1 ++ e :: l2) q = some e)
    ∧ (∀ (q : String) (l1 : List UserRec) (e : UserRec) (l2 : List UserRec),
        (∀ x ∈ l1 ++ e :: l2, userExact q x = false) →
        userFuzzy q e = true → (∀ x ∈ l1, userFuzzy q x = false) →
        find_user_by_name (l1 ++ e :: l2) q = some e)
    ∧ (∀ (q : String) (cache : List UserRec),
        (∀ x ∈ cache, userExact q x = false ∧ userFuzzy q x = false) →
        find_user_by_name cache q = none)
    ∧ (∀ (q : String) (l1 : List ProjRec) (e : ProjRec) (l2 : List ProjRec),
        projExact q e = true → (∀ x ∈ l1, projExact q x = false) →
        get_project_by_name (l1 ++ e :: l2) q = some e)
    ∧ (∀ (q : String) (l1 : List ProjRec) (e : ProjRec) (l2 : List ProjRec),
        (∀ x ∈ l1 ++ e :: l2, projExact q x = false) →
        projFuzzy q e = true → (∀ x ∈ l1, projFuzzy q x = false) →
        get_project_by_name (l1 ++ e :: l2) q = some e)
    ∧ (∀ (q : String) (projects : List ProjRec),
        (∀ x ∈ projects, projExact q x = false ∧ projFuzzy q x = false) →
        get_project_by_name projects q = none) := by
  refine ⟨?_, ?_, ?_, ?_, ?_, ?_, ?_, ?_, ?_⟩
  · intro q l1 e l2 hq he hl
    have hfind := find?_append_first (chanExact q) l1 e l2 he hl
    simp [resolve_channel, hq, hfind]
  · intro q l1 e l2 hq hex hf hl
    have hnone : (l1 ++ e :: l2).find? (chanExact q) = none :=
      List.find?_eq_none.mpr (fun x hx => by simp [hex x hx])
    have hfind := find?_append_first (chanFuzzy q) l1 e l2 hf hl
    simp [resolve_channel, hq, hnone, hfind]
  · intro q cache hall
    by_cases hq : chanClean q = ""
    · simp [resolve_channel, hq]
    · have h1 : cache.find? (chanExact q) = none :=
        List.find?_eq_none.mpr (fun x hx => by simp [(hall x hx).1])
      have h2 : cache.find? (chanFuzzy q) = none :=
        List.find?_eq_none.mpr (fun x hx => by simp [(hall x hx).2])
      simp [resolve_channel, hq, h1, h2]
  · intro q l1 e l2 he hl
    have hfind := find?_append_first (userExact q) l1 e l2 he hl
    simp [find_user_by_name, hfind]
  · intro q l1 e l2 hex hf hl
    have hnone : (l1 ++ e :: l2).find? (userExact q) = none :=
      List.find?_eq_none.mpr (fun x hx => by simp [hex x hx])
    have hfind := find?_append_first (userFuzzy q) l1 e l2 hf hl
    simp [find_user_by_name, hnone, hfind]
  · intro q cache hall
    have h1 : cache.find? (userExact q) = none :=
      List.find?_eq_none.mpr (fun x hx => by simp [(hall x hx).1])
    have h2 : cache.find? (userFuzzy q) = none :=
      List.find?_eq_none.mpr (fun x hx => by simp [(hall x hx).2])
    simp [find_user_by_name, h1, h2]
  · intro q l1 e l2 he hl
    have hfind := find?_append_first (projExact q) l1 e l2 he hl
    simp [get_project_by_name, hfind]
  · intro q l1 e l2 hex hf hl
    have hnone : (l1 ++ e :: l2).find? (projExact q) = none :=
      List.find?_eq_none.mpr (fun x hx => by simp [hex x hx])
    have hfind := find?_append_first (projFuzzy q) l1 e l2 hf hl
    simp [get_project_by_name, hnone, hfind]
  · intro q projects hall
    have h1 : projects.find? (projExact q) = none :=
      List.find?_eq_none.mpr (fun x hx => by simp [(hall x hx).1])
    have h2 : projects.find? (projFuzzy q) = none :=
      List.find?_eq_none.mpr (fun x hx => by simp [(hall x hx).2])
    simp [get_project_by_name, h1, h2]

/-- Witness for C3: each phase of each resolver at concrete directories:
the exact match wins over a preceding substring match, the first substring
match is returned when no exact match exists, and no match yields the
sentinel. -/
theorem c3_resolution_priority_witness :
    resolve_channel [⟨"C0", "xgeneralx"⟩, ⟨"C1", "general"⟩] "#General" = some ⟨"C1", "general"⟩
    ∧ resolve_channel [⟨"C1", "alpha"⟩, ⟨"C2", "xgenx"⟩] "gen" = some ⟨"C2", "xgenx"⟩
    ∧ resolve_channel [⟨"C1", "alpha"⟩] "zzz" = none
    ∧ find_user_by_name [⟨"U0", "w2", "x王志明x", "d"⟩, ⟨"U1", "wang", "王志明", "zm"⟩] "王志明"
      = some ⟨"U1", "wang", "王志明", "zm"⟩
    ∧ find_user_by_name [⟨"U0", "nn", "rr", "dd"⟩, ⟨"U1", "zhiming", "r", "d"⟩] "zhim"
      = some ⟨"U1", "zhiming", "r", "d"⟩
    ∧ find_user_by_name [⟨"U1", "a", "b", "c"⟩] "zzz" = none
    ∧ get_project_by_name [⟨"P0", "my web portal 2"⟩, ⟨"P1", "Web Portal"⟩] "web portal"
      = some ⟨"P1", "Web Portal"⟩
    ∧ get_project_by_name [⟨"P0", "alpha"⟩, ⟨"P1", "Website"⟩] "web" = some ⟨"P1", "Website"⟩
    ∧ get_project_by_name [⟨"P1", "alpha"⟩] "zzz" = none := by
  refine ⟨?_, ?_, ?_, ?_, ?_, ?_, ?_, ?_, ?_⟩
  · exact c3_resolution_priority.1 "#General" [⟨"C0", "xgeneralx"⟩] ⟨"C1", "general"⟩ []
      (by decide) (by decide) (by decide)
  · exact c3_resolution_priority.2.1 "gen" [⟨"C1", "alpha"⟩] ⟨"C2", "xgenx"⟩ []
      (by decide) (by decide) (by decide) (by decide)
  · exact c3_resolution_priority.2.2.1 "zzz" [⟨"C1", "alpha"⟩] (by decide)
  · exact c3_resolution_priority.2.2.2.1 "王志明" [⟨"U0", "w2", "x王志明x", "d"⟩]
      ⟨"U1", "wang", "王志明", "zm"⟩ [] (by decide) (by decide)
  · exact c3_resolution_priority.2.2.2.2.1 "zhim" [⟨"U0", "nn", "rr", "dd"⟩]
      ⟨"U1", "zhiming", "r", "d"⟩ [] (by decide) (by decide) (by decide)
  · exact c3_resolution_priority.2.2.2.2.2.1 "zzz" [⟨"U1", "a", "b", "c"⟩] (by decide)
  · exact c3_resolution_priority.2.2.2.2.2.2.1 "web portal" [⟨"P0", "my web portal 2"⟩]
      ⟨"P1", "Web Portal"⟩ [] (by decide) (by decide)
  · exact c3_resolution_priority.2.2.2.2.2.2.2.1 "web" [⟨"P0", "alpha"⟩] ⟨"P1", "Website"⟩ []
      (by decide) (by decide) (by decide)
  · exact c3_resolution_priority.2.2.2.2.2.2.2.2 "zzz" [⟨"P1", "alpha"⟩] (by decide)

/-- C10: in every IssueTrackerClient list operation (bugs, projects, tasks,
stories), a person-reference field present with the null value normalizes
to the string `"None"` (Python's `str(None)`), while an absent field
normalizes to the empty string. -/
theorem c10_person_normalization :
    (∀ (b row : List (String × JVal)), listBugItem b = some row →
        (jget b "assignedTo" = some JVal.jnull → jget row "assignedTo" = some (JVal.jstr "None"))
        ∧ (jget b "assignedTo" = none → jget row "assignedTo" = some (JVal.jstr ""))
        ∧ (jget b "openedBy" = some JVal.jnull → jget row "openedBy" = some (JVal.jstr "None"))
        ∧ (jget b "openedBy" = none → jget row "openedBy" = some (JVal.jstr "")))
    ∧ (∀ (p row : List (String × JVal)), listProjectItem p = some row →
        (jget p "PM" = some JVal.jnull → jget row "PM" = some (JVal.jstr "None"))
        ∧ (jget p "PM" = none → jget row "PM" = some (JVal.jstr "")))
    ∧ (∀ (t row : List (String × JVal)), listTaskItem t = some row →
        (jget t "assignedTo" = some JVal.jnull → jget row "assignedTo" = some (JVal.jstr "None"))
        ∧ (jget t "assignedTo" = none → jget row "assignedTo" = some (JVal.jstr "")))
    ∧ (∀ (s row : List (String × JVal)), listStoryItem s = some row →
        (jget s "assignedTo" = some JVal.jnull → jget row "assignedTo" = some (JVal.jstr "None"))
        ∧ (jget s "assignedTo" = none → jget row "assignedTo" = some (JVal.jstr ""))) := by
  refine ⟨?_, ?_, ?_, ?_⟩
  · intro b row h
    rcases hid : jget b "id" with _ | vid
    · simp [listBugItem, hid] at h
    rcases htl : jget b "title" with _ | vtl
    · simp [listBugItem, hid, htl] at h
    rcases hst : jget b "status" with _ | vst
    · simp [listBugItem, hid, htl, hst] at h
    simp [listBugItem, hid, htl, hst] at h
    subst h
    refine ⟨?_, ?_, ?_, ?_⟩ <;> intro hnull <;> simp [jget, normalizePerson, hnull, pyStr]
  · intro p row h
    rcases hid : jget p "id" with _ | vid
    · simp [listProjectItem, hid] at h
    rcases hnm : jget p "name" with _ | vnm
    · simp [listProjectItem, hid, hnm] at h
    rcases hst : jget p "status" with _ | vst
    · simp [listProjectItem, hid, hnm, hst] at h
    simp [listProjectItem, hid, hnm, hst] at h
    subst h
    refine ⟨?_, ?_⟩ <;> intro hnull <;> simp [jget, normalizePerson, hnull, pyStr]
  · intro t row h
    rcases hid : jget t "id" with _ | vid
    · simp [listTaskItem, hid] at h
    rcases hnm : jget t "name" with _ | vnm
    · simp [listTaskItem, hid, hnm] at h
    rcases hst : jget t "status" with _ | vst
    · simp [listTaskItem, hid, hnm, hst] at h
    simp [listTaskItem, hid, hnm, hst] at h
    subst h
    refine ⟨?_, ?_⟩ <;> intro hnull <;> simp [jget, normalizePerson, hnull, pyStr]
  · intro s row h
    rcases hid : jget s "id" with _ | vid
    · simp [listStoryItem, hid] at h
    rcases htl : jget s "title" with _ | vtl
    · simp [listStoryItem, hid, htl] at h
    rcases hst : jget s "status" with _ | vst
    · simp [listStoryItem, hid, htl, hst] at h
    simp [listStoryItem, hid, htl, hst] at h
    subst h
    refine ⟨?_, ?_⟩ <;> intro hnull <;> simp [jget, normalizePerson, hnull, pyStr]

/-- Witness for C10: a bug entry with a null `assignedTo` and an absent
`openedBy` normalizes them to `"None"` and `""` respectively. -/
theorem c10_person_normalization_witness :
    listBugItem [("id", JVal.jnum 1), ("title", JVal.jstr "t"), ("status", JVal.jstr "active"),
        ("assignedTo", JVal.jnull)]
      = some [("id", JVal.jnum 1), ("title", JVal.jstr "t"), ("status", JVal.jstr "active"),
        ("severity", JVal.jstr ""), ("pri", JVal.jstr ""), ("assignedTo", JVal.jstr "None"),
        ("openedBy", JVal.jstr ""), ("openedDate", JVal.jstr "")]
    ∧ jget [("id", JVal.jnum 1), ("title", JVal.jstr "t"), ("status", JVal.jstr "active"),
        ("severity", JVal.jstr ""), ("pri", JVal.jstr ""), ("assignedTo", JVal.jstr "None"),
        ("openedBy", JVal.jstr ""), ("openedDate", JVal.jstr "")] "assignedTo"
      = some (JVal.jstr "None")
    ∧ jget [("id", JVal.jnum 1), ("title", JVal.jstr "t"), ("status", JVal.jstr "active"),
        ("severity", JVal.jstr ""), ("pri", JVal.jstr ""), ("assignedTo", JVal.jstr "None"),
        ("openedBy", JVal.jstr ""), ("openedDate", JVal.jstr "")] "openedBy"
      = some (JVal.jstr "") := by
  refine ⟨rfl, ?_, ?_⟩
  · exact ((c10_person_normalization.1
      [("id", JVal.jnum 1), ("title", JVal.jstr "t"), ("status", JVal.jstr "active"),
        ("assignedTo", JVal.jnull)] _ rfl).1 rfl)
  · exact ((c10_person_normalization.1
      [("id", JVal.jnum 1), ("title", JVal.jstr "t"), ("status", JVal.jstr "active"),
        ("assignedTo", JVal.jnull)] _ rfl).2.2.2 rfl)

end DevopsAgent
